import Mathlib

/- Formal model of the ipipe named-pipe library (src/pipe_windows.rs,
   src/pipe_unix.rs, src/fifo_unix.rs).  OS calls are modelled by explicit
   oracle records: each oracle field is the outcome the operating system
   returns for one syscall the Rust code performs, so the Lean functions
   are deterministic in (state, oracle) and mirror the source control flow. -/

namespace Ipipe

/-- Cleanup policy enum from the crate root (used by both platforms). -/
inductive OnCleanup where
  | Delete
  | NoDelete
deriving DecidableEq, Repr

/-- Model of std::path::Path / PathBuf: the textual name plus the result of
the only query the sources make, Path::parent(). -/
structure PathBuf where
  name : String
  parent : Option String
deriving DecidableEq, Repr

/-- Model of std::io::Error: the only observable the sources use is
raw_os_error(), an optional raw OS error code.  Errors built by
io::Error::last_os_error() or io::Error::from_raw_os_error(c) always carry
some code; errors built from a bare ErrorKind would carry none. -/
structure IoError where
  rawOs : Option Nat
deriving DecidableEq, Repr

/-- Result of a Rust expression that can also panic (unreachable!, unwrap
on None): ok value, Err value, or a panic. -/
inductive PRes (ε : Type) (α : Type) where
  | ok (a : α)
  | err (e : ε)
  | panic
deriving DecidableEq, Repr

/-- Whether a PRes is the panic outcome. -/
def PRes.isPanic {ε α : Type} : PRes ε α → Bool
  | .panic => true
  | _ => false

/-- Coerce a non-panicking Except into PRes. -/
def toPRes {ε α : Type} : Except ε α → PRes ε α
  | .ok a => .ok a
  | .error e => .err e

deriving instance DecidableEq for Except

namespace Win

/-- winapi ERROR_NO_DATA, the broken-pipe code checked by Pipe::write. -/
def ERROR_NO_DATA : Nat := 232

/-- winapi ERROR_PIPE_NOT_CONNECTED, checked by the read paths. -/
def ERROR_PIPE_NOT_CONNECTED : Nat := 233

/-- Windows handle role (pipe_windows.rs, enum HandleType). -/
inductive HandleType where
  | Server
  | Client
deriving DecidableEq, Repr

/-- Modelled from the spec: the crate-root Handle enum, an ownership-tagged
wrapper around one raw OS descriptor; Arc is the owning, reference-counted
mode holding a raw descriptor, Weak the non-owning/neutralized alias whose
descriptor is absent. -/
inductive Handle where
  | arc (raw : Nat) (hty : HandleType)
  | weak (hty : HandleType)
deriving DecidableEq, Repr

/-- Modelled from the spec: Handle::raw(), the optional raw descriptor —
present for an owning Arc handle, absent for a neutralized Weak one. -/
def Handle.raw : Handle → Option Nat
  | .arc r _ => some r
  | .weak _ => none

/-- Modelled from the spec: Handle::handle_type(), the role tag. -/
def Handle.handle_type : Handle → HandleType
  | .arc _ t => t
  | .weak t => t

/-- Modelled from the spec: Handle::set_type, replacing the role tag and
keeping the descriptor. -/
def Handle.set_type : Handle → HandleType → Handle
  | .arc r _, t => .arc r t
  | .weak _, t => .weak t

/-- The Windows Pipe struct (pipe_windows.rs lines 21-25): an optional
handle and the pipe path. -/
structure Pipe where
  handle : Option Handle
  path : PathBuf
deriving DecidableEq, Repr

/-- One OS response to a WaitNamedPipeW call inside create_pipe: ok models
a nonzero return, fail c models a zero return whose last_os_error carries
raw code c (none when the io::Error has no raw code). -/
inductive WaitRes where
  | ok
  | fail (c : Option Nat)
deriving DecidableEq, Repr

/-- OS oracle for one run of Pipe::create_pipe: the WaitNamedPipeW loop
responses, the CreateFileW outcome (error = last OS code, ok = fresh raw
descriptor) and the SetNamedPipeHandleState outcome. -/
structure CreatePipeOS where
  waits : List WaitRes
  createFile : Except Nat Nat
  setState : Except Nat Unit
deriving DecidableEq, Repr

/-- The WaitNamedPipeW retry loop of create_pipe (pipe_windows.rs lines
85-95): loop while the call returns zero; a failure without a raw code
breaks out, code 2 retries, any other code is returned as the error.
An exhausted oracle models the call finally returning nonzero. -/
def waitLoop : List WaitRes → Except IoError Unit
  | [] => .ok ()
  | .ok :: _ => .ok ()
  | .fail none :: _ => .ok ()
  | .fail (some c) :: rest =>
      if c = 2 then waitLoop rest else .error ⟨some c⟩

/-- Pipe::create_pipe (pipe_windows.rs lines 79-127): wait for an instance,
CreateFileW, set PIPE_NOWAIT; on success the fresh descriptor is wrapped as
an owning Client handle. -/
def create_pipe (os : CreatePipeOS) : Except IoError Handle :=
  match waitLoop os.waits with
  | .error e => .error e
  | .ok _ =>
    match os.createFile with
    | .error c => .error ⟨some c⟩
    | .ok raw =>
      match os.setState with
      | .ok _ => .ok (.arc raw HandleType.Client)
      | .error c => .error ⟨some c⟩

/-- Pipe::create_listener (pipe_windows.rs lines 130-157): CreateNamedPipeW;
the first flag only selects FILE_FLAG_FIRST_PIPE_INSTANCE and does not
change the result shape.  Success wraps the descriptor as a Server handle. -/
def create_listener (first : Bool) (os : Except Nat Nat) : Except IoError Handle :=
  match os with
  | .ok raw => .ok (.arc raw HandleType.Server)
  | .error c => .error ⟨some c⟩

/-- Pipe::init_writer (pipe_windows.rs lines 160-165): create a client
handle when none is present.  The crate-Error round trip on the ? operator
preserves the OS code (modelled from the spec: OS-call failures are
surfaced with the originating OS error code). -/
def init_writer (p : Pipe) (os : CreatePipeOS) : Except IoError Pipe :=
  match p.handle with
  | some _ => .ok p
  | none =>
    match create_pipe os with
    | .ok h => .ok { p with handle := some h }
    | .error e => .error e

/-- impl Write for Handle (pipe_windows.rs lines 288-312): with a raw
descriptor the WriteFile outcome decides (failure carries last_os_error);
without one a synthesized ERROR_PIPE_NOT_CONNECTED error is returned.
The oracle is the WriteFile outcome: error = last OS code, ok = bytes
written. -/
def Handle.write (h : Handle) (os : Except Nat Nat) : Except IoError Nat :=
  match h.raw with
  | some _ =>
    match os with
    | .ok n => .ok n
    | .error c => .error ⟨some c⟩
  | none => .error ⟨some ERROR_PIPE_NOT_CONNECTED⟩

/-- impl Read for Handle (pipe_windows.rs lines 259-286): no descriptor
reads zero bytes; a ReadFile failure whose last_os_error is
ERROR_PIPE_NOT_CONNECTED is mapped to Ok(0); any other code is an error;
a failure with no raw code hits unreachable!. -/
def Handle.read (h : Handle) (os : Except (Option Nat) Nat) : PRes IoError Nat :=
  match h.raw with
  | none => .ok 0
  | some _ =>
    match os with
    | .ok n => .ok n
    | .error (some c) =>
        if c = ERROR_PIPE_NOT_CONNECTED then .ok 0 else .err ⟨some c⟩
    | .error none => .panic

/-- impl Write for Handle, flush (pipe_windows.rs lines 314-326):
FlushFileBuffers on the descriptor, synthesized ERROR_PIPE_NOT_CONNECTED
without one. -/
def Handle.flush (h : Handle) (os : Except Nat Unit) : Except IoError Unit :=
  match h.raw with
  | some _ =>
    match os with
    | .ok _ => .ok ()
    | .error c => .error ⟨some c⟩
  | none => .error ⟨some ERROR_PIPE_NOT_CONNECTED⟩

/-- OS oracle for one Pipe::write call: create_pipe responses for the
initial init_writer and for the reconnect, and the two possible WriteFile
outcomes. -/
structure WriteOS where
  create1 : CreatePipeOS
  wf1 : Except Nat Nat
  create2 : CreatePipeOS
  wf2 : Except Nat Nat
deriving DecidableEq, Repr

/-- impl Write for Pipe, write (pipe_windows.rs lines 169-189): init the
writer, attempt the write; on an error whose unwrapped raw code equals
ERROR_NO_DATA drop the handle, reconnect once and retry; any other error
is surfaced.  The Nat component counts Handle::write attempts; panic marks
the unreachable! arms and the unwrap of a code-less error. -/
def Pipe.write (p : Pipe) (os : WriteOS) : PRes IoError Nat × Pipe × Nat :=
  match init_writer p os.create1 with
  | .error e => (.err e, p, 0)
  | .ok p1 =>
    match p1.handle with
    | none => (.panic, p1, 0)
    | some h =>
      match Handle.write h os.wf1 with
      | .ok r => (.ok r, p1, 1)
      | .error e =>
        match e.rawOs with
        | none => (.panic, p1, 1)
        | some c =>
          if c = ERROR_NO_DATA then
            match init_writer { p1 with handle := none } os.create2 with
            | .error e2 => (.err e2, { p1 with handle := none }, 1)
            | .ok p2 =>
              match p2.handle with
              | none => (.panic, p2, 1)
              | some h2 => (toPRes (Handle.write h2 os.wf2), p2, 2)
          else (.err e, p1, 1)

/-- OS oracle for one Pipe::flush call: the create_pipe responses used when
no handle is present, and the FlushFileBuffers outcome used when one is. -/
structure FlushOS where
  create : CreatePipeOS
  ff : Except Nat Unit
deriving DecidableEq, Repr

/-- impl Write for Pipe, flush (pipe_windows.rs lines 191-200): with no
handle, initialize a writer (and keep it); with a handle, flush it and on
success discard the handle. -/
def Pipe.flush (p : Pipe) (os : FlushOS) : Except IoError Unit × Pipe :=
  match p.handle with
  | none =>
    match init_writer p os.create with
    | .ok p1 => (.ok (), p1)
    | .error e => (.error e, p)
  | some h =>
    match Handle.flush h os.ff with
    | .ok _ => (.ok (), { p with handle := none })
    | .error e => (.error e, p)

/-- OS oracle for one Pipe::read call: CreateNamedPipeW outcome (when a
listener must be made), ConnectNamedPipe outcome (ok = nonzero return,
error c = zero return with last_os_error code c, none when code-less), and
the ReadFile outcome for the actual read. -/
structure ReadOS where
  listen : Except Nat Nat
  connect : Except (Option Nat) Unit
  rf : Except (Option Nat) Nat
deriving DecidableEq, Repr

/-- The ConnectNamedPipe handshake shared by both acquisition branches of
Pipe::read (pipe_windows.rs lines 210-218 and 226-235): a zero return with
ERROR_PIPE_NOT_CONNECTED is benign, another code is an error, and a
code-less failure hits unreachable!. -/
def connectHandshake (os : Except (Option Nat) Unit) : PRes IoError Unit :=
  match os with
  | .ok _ => .ok ()
  | .error (some c) =>
      if c = ERROR_PIPE_NOT_CONNECTED then .ok () else .err ⟨some c⟩
  | .error none => .panic

/-- impl Read for Pipe (pipe_windows.rs lines 203-256): acquire a connected
listener when the handle is absent or neutralized, then read; a read error
with a raw code is surfaced, one without is mapped to Ok(0).  The loop in
the source breaks on every branch of its single iteration, so it is
modelled straight-line. -/
def Pipe.read (p : Pipe) (os : ReadOS) : PRes IoError Nat × Pipe :=
  let acquired : PRes IoError (Handle × Pipe) :=
    match p.handle with
    | none =>
      match create_listener true os.listen with
      | .error e => .err e
      | .ok l =>
        match connectHandshake os.connect with
        | .panic => .panic
        | .err e => .err e
        | .ok _ => .ok (l, { p with handle := some l })
    | some h =>
      match h.raw with
      | none =>
        match create_listener false os.listen with
        | .error e => .err e
        | .ok l =>
          match connectHandshake os.connect with
          | .panic => .panic
          | .err e => .err e
          | .ok _ => .ok (l, { p with handle := some l })
      | some _ => .ok (h, p)
  match acquired with
  | .panic => (.panic, p)
  | .err e => (.err e, p)
  | .ok (h, p1) =>
    match Handle.read h os.rf with
    | .panic => (.panic, p1)
    | .ok n => (.ok n, p1)
    | .err e =>
      match e.rawOs with
      | some _ => (.err e, p1)
      | none => (.ok 0, p1)

/-- One OS-level action performed during handle teardown. -/
inductive WinOp where
  | disconnect (raw : Nat)
  | flushBuf (raw : Nat)
  | closeHandle (raw : Nat)
deriving DecidableEq, Repr

/-- impl Drop for Handle (pipe_windows.rs lines 335-352): an owning Arc
handle is flushed, disconnected when Server-tagged, then closed; a Weak
handle does nothing. -/
def Handle.dropOps : Handle → List WinOp
  | .arc raw ty =>
      [WinOp.flushBuf raw]
        ++ (if ty = HandleType.Server then [WinOp.disconnect raw] else [])
        ++ [WinOp.closeHandle raw]
  | .weak _ => []

/-- Pipe::close (pipe_windows.rs lines 60-76): close consumes the pipe; a
Server-tagged handle with a descriptor gets an explicit DisconnectNamedPipe
(the oracle outcome), is retagged Client on success, and is then dropped
when it goes out of scope — the returned list is the full trace of OS
teardown actions including that drop.  On a disconnect failure the error
returns early, skipping the retag, and the still-Server handle is dropped
during unwinding. -/
def Pipe.close (p : Pipe) (os : Except Nat Unit) : Except IoError Unit × List WinOp :=
  match p.handle with
  | none => (.ok (), [])
  | some h =>
    if h.handle_type = HandleType.Server then
      match h.raw with
      | some raw =>
        match os with
        | .ok _ => (.ok (), WinOp.disconnect raw :: (h.set_type HandleType.Client).dropOps)
        | .error c => (.error ⟨some c⟩, WinOp.disconnect raw :: h.dropOps)
      | none => (.ok (), (h.set_type HandleType.Client).dropOps)
    else (.ok (), h.dropOps)

/-- Number of DisconnectNamedPipe invocations in a teardown trace. -/
def countDisconnects (ops : List WinOp) : Nat :=
  (ops.filter fun op => match op with | WinOp.disconnect _ => true | _ => false).length

end Win

namespace Unix

/-- POSIX errno ENOENT. -/
def ENOENT : Nat := 2

/-- POSIX errno EBADF, used by init_handle_type's ok_or. -/
def EBADF : Nat := 9

/-- The S_IFIFO bit of st_mode (octal 010000). -/
def S_IFIFO : Nat := 4096

/-- POSIX handle role (pipe_unix.rs, enum HandleType). -/
inductive HandleType where
  | Read
  | Write
  | Unknown
deriving DecidableEq, Repr

/-- Modelled from the spec: the crate-root Handle enum on POSIX — an
owning reference-counted descriptor (arc) or a neutralized non-owning
alias with no descriptor (weak, built from Weak::new() which can never
upgrade). -/
inductive Handle where
  | arc (fd : Nat) (hty : HandleType)
  | weak (hty : HandleType)
deriving DecidableEq, Repr

/-- Modelled from the spec: Handle::raw() on POSIX. -/
def Handle.raw : Handle → Option Nat
  | .arc fd _ => some fd
  | .weak _ => none

/-- Modelled from the spec: Handle::handle_type() on POSIX. -/
def Handle.handle_type : Handle → HandleType
  | .arc _ t => t
  | .weak t => t

/-- Modelled from the spec: Handle::set_type on POSIX — retag, keep the
descriptor. -/
def Handle.set_type : Handle → HandleType → Handle
  | .arc fd _, t => .arc fd t
  | .weak _, t => .weak t

/-- The error type of the old nix crate used by fifo_unix.rs: a system
errno or nix's own InvalidPath. -/
inductive NixError where
  | Sys (errno : Nat)
  | InvalidPath
deriving DecidableEq, Repr

/-- Modelled from the spec: the crate-root Error enum — InvalidPath (path
missing a parent, or existing node is not the expected pipe type), an
underlying OS-call failure carrying the originating errno, a UTF-8
decoding failure, and the registry's pipe-not-initialized condition. -/
inductive Error where
  | InvalidPath
  | Os (errno : Nat)
  | Utf8
  | NotInitialized
deriving DecidableEq, Repr

/-- Modelled from the spec: the From conversion of a nix error into the
crate error — an errno keeps its code, nix InvalidPath maps to the
crate-level InvalidPath. -/
def NixError.toError : NixError → Error
  | .Sys e => .Os e
  | .InvalidPath => .InvalidPath

/-- One syscall event, recorded so claims about syscall-free paths can be
stated. -/
inductive Sys where
  | statCall
  | mkfifoCall
  | openCall
deriving DecidableEq, Repr

/-- The POSIX Pipe struct (pipe_unix.rs lines 16-23). -/
structure Pipe where
  handle1 : Option Handle
  handle2 : Option Handle
  path : PathBuf
  is_slave : Bool
  delete : Option OnCleanup
deriving DecidableEq, Repr

/-- OS oracle for Pipe::init_handle: the stat outcome (ok = st_mode, error
= errno) and the fcntl open outcome (ok = fresh fd, error = errno). -/
structure InitHandleOS where
  st : Except Nat Nat
  op : Except Nat Nat
deriving DecidableEq, Repr

/-- Pipe::init_handle (pipe_unix.rs lines 92-114): requires a parent
component, stats the path (a non-FIFO node yields errno ENOENT, any stat
failure propagates), then opens it O_RDWR|O_NOCTTY, wrapping the fd as an
Unknown-tagged owning handle.  Also returns the syscall trace. -/
def init_handle (path : PathBuf) (os : InitHandleOS) :
    Except Error Handle × List Sys :=
  match path.parent with
  | some _ =>
    match os.st with
    | .ok mode =>
      if mode &&& S_IFIFO = 0 then (.error (.Os ENOENT), [Sys.statCall])
      else
        match os.op with
        | .ok fd => (.ok (.arc fd HandleType.Unknown), [Sys.statCall, Sys.openCall])
        | .error e => (.error (.Os e), [Sys.statCall, Sys.openCall])
    | .error e => (.error (.Os e), [Sys.statCall])
  | none => (.error .InvalidPath, [])

/-- OS oracle for Pipe::open: the outer stat, the mkfifo outcome when the
path is absent, and the init_handle oracle. -/
structure OpenOS where
  st : Except Nat Nat
  mkfifo : Except Nat Unit
  ih : InitHandleOS
deriving DecidableEq, Repr

/-- Pipe::open (pipe_unix.rs lines 30-59): requires a parent component;
stat the path — an existing non-FIFO node is InvalidPath, ENOENT triggers
mkfifo, any other stat error propagates — then init_handle populates
handle1 of a fresh master pipe.  Also returns the syscall trace. -/
def Pipe.open (path : PathBuf) (on_cleanup : OnCleanup) (os : OpenOS) :
    Except Error Pipe × List Sys :=
  match path.parent with
  | some _ =>
    let proceed : List Sys → Except Error Pipe × List Sys := fun pre =>
      let (r, tr) := init_handle path os.ih
      (r.map fun h =>
        { handle1 := some h, handle2 := none, path := path,
          is_slave := false, delete := some on_cleanup }, pre ++ tr)
    match os.st with
    | .ok mode =>
      if mode &&& S_IFIFO = 0 then (.error .InvalidPath, [Sys.statCall])
      else proceed [Sys.statCall]
    | .error e =>
      if e = ENOENT then
        match os.mkfifo with
        | .ok _ => proceed [Sys.statCall, Sys.mkfifoCall]
        | .error me => (.error (.Os me), [Sys.statCall, Sys.mkfifoCall])
      else (.error (.Os e), [Sys.statCall])
  | none => (.error .InvalidPath, [])

/-- Pipe::init_handle_type (pipe_unix.rs lines 116-132): an Unknown-tagged
handle1 is retagged with the requested direction; if handle1 then matches
the request its descriptor is used, otherwise handle2 is used, being
lazily opened (via init_handle, retagged with the request) when absent; a
missing descriptor becomes errno EBADF.  The unwraps on a None handle1
panic.  Returns the descriptor outcome and the updated pipe. -/
def Pipe.init_handle_type (p : Pipe) (t : HandleType) (os : InitHandleOS) :
    PRes Error Nat × Pipe :=
  match p.handle1 with
  | none => (.panic, p)
  | some h1 =>
    let h1' := if h1.handle_type = HandleType.Unknown then h1.set_type t else h1
    let p' := { p with handle1 := some h1' }
    if h1'.handle_type = t then
      match h1'.raw with
      | some fd => (.ok fd, p')
      | none => (.err (.Os EBADF), p')
    else
      match p'.handle2 with
      | some h2 =>
        match h2.raw with
        | some fd => (.ok fd, p')
        | none => (.err (.Os EBADF), p')
      | none =>
        match (init_handle p.path os).1 with
        | .error e => (.err e, p')
        | .ok h =>
          let h' := h.set_type t
          let p2 := { p' with handle2 := some h' }
          match h'.raw with
          | some fd => (.ok fd, p2)
          | none => (.err (.Os EBADF), p2)

/-- impl Write for Pipe (pipe_unix.rs lines 135-141): classify a Write
descriptor, then unistd::write (oracle: ok = bytes written, error =
errno). -/
def Pipe.write (p : Pipe) (os : InitHandleOS) (wres : Except Nat Nat) :
    PRes Error Nat × Pipe :=
  match p.init_handle_type HandleType.Write os with
  | (.ok _, p') =>
    (match wres with
     | .ok n => (.ok n, p')
     | .error e => (.err (.Os e), p'))
  | (.err e, p') => (.err e, p')
  | (.panic, p') => (.panic, p')

/-- impl Read for Pipe (pipe_unix.rs lines 154-161): classify a Read
descriptor, then unistd::read. -/
def Pipe.read (p : Pipe) (os : InitHandleOS) (rres : Except Nat Nat) :
    PRes Error Nat × Pipe :=
  match p.init_handle_type HandleType.Read os with
  | (.ok _, p') =>
    (match rres with
     | .ok n => (.ok n, p')
     | .error e => (.err (.Os e), p'))
  | (.err e, p') => (.err e, p')
  | (.panic, p') => (.panic, p')

/-- impl Drop for Pipe (pipe_unix.rs lines 163-175): a slave does nothing;
the master neutralizes handle1 to a Weak Unknown placeholder, clears
handle2, and removes the named file exactly when its policy is Delete.
The Bool reports whether remove_file was invoked. -/
def Pipe.drop (p : Pipe) : Pipe × Bool :=
  if p.is_slave then (p, false)
  else
    let p' := { p with handle1 := some (Handle.weak HandleType.Unknown),
                       handle2 := none }
    match p.delete with
    | some OnCleanup.Delete => (p', true)
    | _ => (p', false)

/-- impl Clone for Pipe (pipe_unix.rs lines 177-189): the clone shares both
handle slots and the path, is marked slave, and carries the NoDelete
policy. -/
def Pipe.clone (p : Pipe) : Pipe :=
  { handle1 := p.handle1, handle2 := p.handle2, path := p.path,
    is_slave := true, delete := some OnCleanup.NoDelete }

/-- The Fifo struct (fifo_unix.rs lines 11-17). -/
structure Fifo where
  handle : Nat
  path : PathBuf
  is_closed : Bool
  delete : OnCleanup
deriving DecidableEq, Repr

/-- OS oracle for Fifo::open: the stat outcome in the old nix error style,
and the fcntl open outcome. -/
structure FOpenOS where
  st : Except NixError Nat
  op : Except Nat Nat
deriving DecidableEq, Repr

/-- Fifo::open (fifo_unix.rs lines 23-59): requires a parent component;
stat the path — an existing non-FIFO node raises nix InvalidPath
(converted to the crate InvalidPath), any stat failure propagates through
the same conversion — then the path is opened O_RDWR|O_NOCTTY.  Also
returns the syscall trace. -/
def Fifo.open (path : PathBuf) (delete_on_drop : OnCleanup) (os : FOpenOS) :
    Except Error Fifo × List Sys :=
  match path.parent with
  | some _ =>
    match os.st with
    | .ok mode =>
      if mode &&& S_IFIFO = 0 then
        (.error NixError.InvalidPath.toError, [Sys.statCall])
      else
        match os.op with
        | .ok fd =>
          (.ok { handle := fd, path := path, is_closed := false,
                 delete := delete_on_drop }, [Sys.statCall, Sys.openCall])
        | .error e => (.error (.Os e), [Sys.statCall, Sys.openCall])
    | .error ne => (.error ne.toError, [Sys.statCall])
  | none => (.error .InvalidPath, [])

/-- Rust Vec::with_capacity(size) as a byte buffer: capacity is reserved
but the length is zero, so as a slice it is empty regardless of size. -/
def vec_with_capacity (size : Nat) : List Nat := []

/-- Kernel read into a buffer of the given length: takes at most len bytes
from the data available in the pipe, returning the bytes delivered and the
bytes left in the pipe. -/
def sysRead (avail : List Nat) (len : Nat) : List Nat × List Nat :=
  (avail.take len, avail.drop len)

/-- Fifo::read_bytes (fifo_unix.rs lines 139-144): allocate
Vec::with_capacity(size), let unistd::read fill its (empty) slice, return
the vector.  avail is the data sitting in the pipe, errOracle an optional
errno for a failing read; the pair also returns the data remaining in the
pipe. -/
def Fifo.read_bytes (f : Fifo) (size : Nat) (avail : List Nat)
    (errOracle : Option Nat) : Except Error (List Nat) × List Nat :=
  let buf := vec_with_capacity size
  match errOracle with
  | some e => (.error (.Os e), avail)
  | none =>
    let (got, rest) := sysRead avail buf.length
    (.ok (got ++ buf.drop got.length), rest)

/-- Whether a byte is a UTF-8 continuation byte (0x80-0xBF). -/
def isCont (b : Nat) : Bool := 128 ≤ b && b ≤ 191

/-- UTF-8 validity of a byte sequence, as checked by String::from_utf8:
ASCII, 2-byte (0xC2-0xDF), 3-byte (0xE0/0xE1-0xEC/0xED/0xEE-0xEF with
their continuation ranges, excluding overlongs and surrogates) and 4-byte
(0xF0/0xF1-0xF3/0xF4) forms. -/
def utf8Valid : List Nat → Bool
  | [] => true
  | b0 :: rest =>
    if b0 ≤ 127 then utf8Valid rest
    else if 194 ≤ b0 && b0 ≤ 223 then
      match rest with
      | b1 :: r => isCont b1 && utf8Valid r
      | [] => false
    else if b0 = 224 then
      match rest with
      | b1 :: b2 :: r => (160 ≤ b1 && b1 ≤ 191) && isCont b2 && utf8Valid r
      | _ => false
    else if 225 ≤ b0 && b0 ≤ 236 then
      match rest with
      | b1 :: b2 :: r => isCont b1 && isCont b2 && utf8Valid r
      | _ => false
    else if b0 = 237 then
      match rest with
      | b1 :: b2 :: r => (128 ≤ b1 && b1 ≤ 159) && isCont b2 && utf8Valid r
      | _ => false
    else if 238 ≤ b0 && b0 ≤ 239 then
      match rest with
      | b1 :: b2 :: r => isCont b1 && isCont b2 && utf8Valid r
      | _ => false
    else if b0 = 240 then
      match rest with
      | b1 :: b2 :: b3 :: r =>
        (144 ≤ b1 && b1 ≤ 191) && isCont b2 && isCont b3 && utf8Valid r
      | _ => false
    else if 241 ≤ b0 && b0 ≤ 243 then
      match rest with
      | b1 :: b2 :: b3 :: r => isCont b1 && isCont b2 && isCont b3 && utf8Valid r
      | _ => false
    else if b0 = 244 then
      match rest with
      | b1 :: b2 :: b3 :: r =>
        (128 ≤ b1 && b1 ≤ 143) && isCont b2 && isCont b3 && utf8Valid r
      | _ => false
    else false

/-- String::from_utf8 with the Rust String modelled by its byte sequence:
valid bytes are returned unchanged, invalid ones raise the crate's UTF-8
error (via Error::from on FromUtf8Error). -/
def from_utf8 (bs : List Nat) : Except Error (List Nat) :=
  if utf8Valid bs then .ok bs else .error .Utf8

/-- Fifo::read_string (fifo_unix.rs lines 147-152): same zero-length
buffer as read_bytes, with the result passed through String::from_utf8. -/
def Fifo.read_string (f : Fifo) (size : Nat) (avail : List Nat)
    (errOracle : Option Nat) : Except Error (List Nat) × List Nat :=
  let buf := vec_with_capacity size
  match errOracle with
  | some e => (.error (.Os e), avail)
  | none =>
    let (got, rest) := sysRead avail buf.length
    (from_utf8 (got ++ buf.drop got.length), rest)

end Unix

/- Helper lemmas shared by the claim theorems. -/

/-- A successful init_handle always yields an owning handle tagged Unknown. -/
theorem init_handle_shape (path : PathBuf) (os : Unix.InitHandleOS) (h : Unix.Handle)
    (hk : (Unix.init_handle path os).1 = .ok h) :
    ∃ fd, h = Unix.Handle.arc fd Unix.HandleType.Unknown := by
  unfold Unix.init_handle at hk
  cases hpp : path.parent with
  | none => rw [hpp] at hk; simp at hk
  | some d =>
    rw [hpp] at hk
    cases hst : os.st with
    | error e => rw [hst] at hk; simp at hk
    | ok mode =>
      rw [hst] at hk
      by_cases hm : mode &&& Unix.S_IFIFO = 0
      · simp [hm] at hk
      · cases hop : os.op with
        | ok fd => rw [hop] at hk; simp [hm] at hk; exact ⟨fd, hk.symm⟩
        | error e => rw [hop] at hk; simp [hm] at hk

/-- A successful Windows init_writer always leaves a handle in place. -/
theorem init_writer_handle_isSome (p : Win.Pipe) (os : Win.CreatePipeOS) (p1 : Win.Pipe)
    (h : Win.init_writer p os = .ok p1) : ∃ hh, p1.handle = some hh := by
  unfold Win.init_writer at h
  cases hp : p.handle with
  | some h0 =>
    rw [hp] at h
    simp at h
    exact ⟨h0, by rw [← h, hp]⟩
  | none =>
    rw [hp] at h
    cases hc : Win.create_pipe os with
    | ok h0 =>
      rw [hc] at h
      simp at h
      exact ⟨h0, by rw [← h]⟩
    | error e => rw [hc] at h; simp at h

/-- Every error produced by the Windows Handle::write carries a raw OS
code. -/
theorem handle_write_err_code (h : Win.Handle) (os : Except Nat Nat) (e : IoError)
    (hw : Win.Handle.write h os = .error e) : ∃ c, e.rawOs = some c := by
  cases h with
  | arc r t =>
    cases os with
    | ok n => simp [Win.Handle.write, Win.Handle.raw] at hw
    | error c =>
      simp [Win.Handle.write, Win.Handle.raw] at hw
      exact ⟨c, by rw [← hw]⟩
  | weak t =>
    simp [Win.Handle.write, Win.Handle.raw] at hw
    exact ⟨Win.ERROR_PIPE_NOT_CONNECTED, by rw [← hw]⟩

/-- toPRes never produces the panic outcome. -/
theorem toPRes_not_panic {ε α : Type} (x : Except ε α) : (toPRes x).isPanic = false := by
  cases x <;> rfl

/-- C9: Fifo::read_bytes and Fifo::read_string hand the OS a length-zero
buffer (Vec::with_capacity produces an empty vector), so on a successful
read they return an empty vector / empty string and leave the pipe's data
untouched, for every requested size and every amount of available data. -/
theorem fifo_read_zero_length_buffer :
    ∀ (f : Unix.Fifo) (size : Nat) (avail : List Nat),
      (Unix.vec_with_capacity size).length = 0 ∧
      Unix.Fifo.read_bytes f size avail none = (.ok [], avail) ∧
      Unix.Fifo.read_string f size avail none = (.ok [], avail) := by
  intro f size avail
  exact ⟨rfl, rfl, rfl⟩

/-- C8: on POSIX, Pipe::open and Fifo::open on a path with no parent
component fail with InvalidPath and perform no syscall at all (empty
syscall trace: no stat, mkfifo or open). -/
theorem unix_open_no_parent_no_syscall (path : PathBuf) (c d : OnCleanup)
    (os : Unix.OpenOS) (fos : Unix.FOpenOS) (hp : path.parent = none) :
    Unix.Pipe.open path c os = (.error .InvalidPath, []) ∧
    Unix.Fifo.open path d fos = (.error .InvalidPath, []) := by
  constructor <;> simp [Unix.Pipe.open, Unix.Fifo.open, hp]

/-- Witness for C8 at a concrete parentless path. -/
theorem unix_open_no_parent_no_syscall_witness :
    Unix.Pipe.open ⟨"", none⟩ OnCleanup.NoDelete
        ⟨.ok 4096, .ok (), ⟨.ok 4096, .ok 3⟩⟩ = (.error .InvalidPath, []) ∧
    Unix.Fifo.open ⟨"", none⟩ OnCleanup.NoDelete
        ⟨.ok 4096, .ok 3⟩ = (.error .InvalidPath, []) :=
  unix_open_no_parent_no_syscall ⟨"", none⟩ OnCleanup.NoDelete OnCleanup.NoDelete
    ⟨.ok 4096, .ok (), ⟨.ok 4096, .ok 3⟩⟩ ⟨.ok 4096, .ok 3⟩ rfl

/-- C4: dropping a cloned (slave) POSIX Pipe leaves its state untouched
and never removes the named resource; the clone shares both handle slots
with the master; only a master drop neutralizes handle1 to a Weak
placeholder, clears handle2, and removes the resource exactly when its
policy is Delete. -/
theorem unix_slave_drop_frame (p : Unix.Pipe) :
    (Unix.Pipe.clone p).is_slave = true ∧
    (Unix.Pipe.clone p).handle1 = p.handle1 ∧
    (Unix.Pipe.clone p).handle2 = p.handle2 ∧
    Unix.Pipe.drop (Unix.Pipe.clone p) = (Unix.Pipe.clone p, false) ∧
    (p.is_slave = true → Unix.Pipe.drop p = (p, false)) ∧
    (p.is_slave = false →
      (Unix.Pipe.drop p).1.handle1 = some (Unix.Handle.weak Unix.HandleType.Unknown) ∧
      (Unix.Pipe.drop p).1.handle2 = none ∧
      ((Unix.Pipe.drop p).2 = true ↔ p.delete = some OnCleanup.Delete)) := by
  refine ⟨rfl, rfl, rfl, ?_, ?_, ?_⟩
  · simp [Unix.Pipe.drop, Unix.Pipe.clone]
  · intro hs
    simp [Unix.Pipe.drop, hs]
  · intro hs
    refine ⟨?_, ?_, ?_⟩ <;>
      rcases hd : p.delete with _ | ⟨_ | _⟩ <;>
        simp [Unix.Pipe.drop, hs, hd]

/-- Witness for C4: a concrete master with Delete policy and its clone. -/
theorem unix_slave_drop_frame_witness :
    Unix.Pipe.drop
        (Unix.Pipe.clone ⟨some (.arc 3 .Read), none, ⟨"f", some "/tmp"⟩, false,
          some OnCleanup.Delete⟩) =
      (Unix.Pipe.clone ⟨some (.arc 3 .Read), none, ⟨"f", some "/tmp"⟩, false,
          some OnCleanup.Delete⟩, false) ∧
    (Unix.Pipe.drop ⟨some (.arc 3 .Read), none, ⟨"f", some "/tmp"⟩, false,
        some OnCleanup.Delete⟩).2 = true :=
  ⟨(unix_slave_drop_frame _).2.2.2.1,
    ((unix_slave_drop_frame ⟨some (.arc 3 .Read), none, ⟨"f", some "/tmp"⟩, false,
        some OnCleanup.Delete⟩).2.2.2.2.2 rfl).2.2.mpr rfl⟩

/-- C3: on POSIX, opening a path that exists and is not a FIFO fails with
InvalidPath for both Pipe::open and Fifo::open (never silently succeeding),
and any other stat failure is propagated as the underlying OS error
(Pipe::open treats ENOENT separately by creating the FIFO; Fifo::open
propagates every stat error through the nix conversion). -/
theorem unix_open_rejects_non_fifo (path : PathBuf) (d0 : String) (c d : OnCleanup)
    (os : Unix.OpenOS) (fos : Unix.FOpenOS) (hp : path.parent = some d0) :
    (∀ mode, os.st = .ok mode → mode &&& Unix.S_IFIFO = 0 →
      (Unix.Pipe.open path c os).1 = .error .InvalidPath) ∧
    (∀ e, os.st = .error e → e ≠ Unix.ENOENT →
      (Unix.Pipe.open path c os).1 = .error (.Os e)) ∧
    (∀ mode, fos.st = .ok mode → mode &&& Unix.S_IFIFO = 0 →
      (Unix.Fifo.open path d fos).1 = .error .InvalidPath) ∧
    (∀ ne, fos.st = .error ne →
      (Unix.Fifo.open path d fos).1 = .error ne.toError) := by
  refine ⟨?_, ?_, ?_, ?_⟩
  · intro mode hst hm
    simp [Unix.Pipe.open, hp, hst, hm]
  · intro e hst he
    simp [Unix.Pipe.open, hp, hst, he]
  · intro mode hst hm
    simp [Unix.Fifo.open, hp, hst, hm, Unix.NixError.toError]
  · intro ne hst
    simp [Unix.Fifo.open, hp, hst]

/-- Witness for C3: a regular file (st_mode 0o100000) is rejected by both
open functions. -/
theorem unix_open_rejects_non_fifo_witness :
    (Unix.Pipe.open ⟨"f", some "/tmp"⟩ OnCleanup.NoDelete
        ⟨.ok 32768, .ok (), ⟨.ok 32768, .ok 3⟩⟩).1 = .error .InvalidPath ∧
    (Unix.Fifo.open ⟨"f", some "/tmp"⟩ OnCleanup.NoDelete
        ⟨.ok 32768, .ok 3⟩).1 = .error .InvalidPath :=
  ⟨(unix_open_rejects_non_fifo ⟨"f", some "/tmp"⟩ "/tmp" OnCleanup.NoDelete
      OnCleanup.NoDelete ⟨.ok 32768, .ok (), ⟨.ok 32768, .ok 3⟩⟩
      ⟨.ok 32768, .ok 3⟩ rfl).1 32768 rfl (by decide),
   (unix_open_rejects_non_fifo ⟨"f", some "/tmp"⟩ "/tmp" OnCleanup.NoDelete
      OnCleanup.NoDelete ⟨.ok 32768, .ok (), ⟨.ok 32768, .ok 3⟩⟩
      ⟨.ok 32768, .ok 3⟩ rfl).2.2.1 32768 rfl (by decide)⟩

/-- C2: on the Windows read path, when the handle has a raw descriptor and
the OS reports ERROR_PIPE_NOT_CONNECTED for the read, Handle::read returns
Ok(0) and Pipe::read surfaces that logical end-of-data — never a hard
error — leaving the pipe unchanged. -/
theorem win_read_not_connected_is_eof (p : Win.Pipe) (raw : Nat)
    (ty : Win.HandleType) (os : Win.ReadOS)
    (hh : p.handle = some (.arc raw ty))
    (hrf : os.rf = .error (some Win.ERROR_PIPE_NOT_CONNECTED)) :
    Win.Handle.read (.arc raw ty) os.rf = .ok 0 ∧
    Win.Pipe.read p os = (.ok 0, p) := by
  constructor
  · rw [hrf]
    simp [Win.Handle.read, Win.Handle.raw]
  · simp [Win.Pipe.read, hh, hrf, Win.Handle.raw, Win.Handle.read]

/-- Witness for C2 at a concrete connected Server handle. -/
theorem win_read_not_connected_is_eof_witness :
    Win.Handle.read (.arc 4 .Server) (.error (some 233)) = .ok 0 ∧
    Win.Pipe.read ⟨some (.arc 4 .Server), ⟨"p", some "/"⟩⟩ ⟨.ok 9, .ok (), .error (some 233)⟩ =
      (.ok 0, ⟨some (.arc 4 .Server), ⟨"p", some "/"⟩⟩) :=
  win_read_not_connected_is_eof ⟨some (.arc 4 .Server), ⟨"p", some "/"⟩⟩ 4 .Server
    ⟨.ok 9, .ok (), .error (some 233)⟩ rfl rfl

/-- C6 counterexample: when the explicit DisconnectNamedPipe inside
Pipe::close fails, the early error return skips the Client retag, the
handle is dropped still tagged Server, and close-plus-drop issues two
OS-level disconnect calls on the descriptor — refuting the unconditional
at-most-one-disconnect reading of the claim. -/
theorem win_close_double_disconnect_cex :
    (Win.Pipe.close ⟨some (.arc 0 .Server), ⟨"x", some "/"⟩⟩ (.error 5)).1 =
      .error ⟨some 5⟩ ∧
    Win.countDisconnects
      (Win.Pipe.close ⟨some (.arc 0 .Server), ⟨"x", some "/"⟩⟩ (.error 5)).2 = 2 :=
  ⟨rfl, rfl⟩

/-- C6 (amended): whenever the explicit DisconnectNamedPipe call succeeds,
close-plus-drop performs at most one OS-level disconnect, and on a
Server-tagged owning handle the trace is exactly one disconnect followed by
the drop of the Client-retagged handle (flush then close, no second
disconnect). -/
theorem win_close_retag_single_disconnect (p : Win.Pipe) :
    Win.countDisconnects (Win.Pipe.close p (.ok ())).2 ≤ 1 ∧
    (∀ raw, p.handle = some (.arc raw .Server) →
      Win.Pipe.close p (.ok ()) =
        (.ok (), [.disconnect raw, .flushBuf raw, .closeHandle raw])) := by
  constructor
  · rcases hh : p.handle with _ | h
    · simp [Win.Pipe.close, hh, Win.countDisconnects]
    · cases h with
      | arc raw ty =>
        cases ty <;>
          simp [Win.Pipe.close, hh, Win.Handle.handle_type, Win.Handle.raw,
            Win.Handle.set_type, Win.Handle.dropOps, Win.countDisconnects]
      | weak ty =>
        cases ty <;>
          simp [Win.Pipe.close, hh, Win.Handle.handle_type, Win.Handle.raw,
            Win.Handle.set_type, Win.Handle.dropOps, Win.countDisconnects]
  · intro raw hh
    simp [Win.Pipe.close, hh, Win.Handle.handle_type, Win.Handle.raw,
      Win.Handle.set_type, Win.Handle.dropOps]

/-- Witness for C6 (amended) on a concrete Server handle with a succeeding
disconnect. -/
theorem win_close_retag_single_disconnect_witness :
    Win.Pipe.close ⟨some (.arc 0 .Server), ⟨"x", some "/"⟩⟩ (.ok ()) =
      (.ok (), [.disconnect 0, .flushBuf 0, .closeHandle 0]) :=
  (win_close_retag_single_disconnect ⟨some (.arc 0 .Server), ⟨"x", some "/"⟩⟩).2 0 rfl

/-- C7 counterexample: a flush on a Windows pipe that currently has no
handle succeeds while initializing and retaining a fresh client handle, so
a successful flush does not always leave the handle absent. -/
theorem win_flush_none_keeps_handle_cex :
    (Win.Pipe.flush ⟨none, ⟨"p", some "/"⟩⟩ ⟨⟨[], .ok 7, .ok ()⟩, .ok ()⟩).1 = .ok () ∧
    (Win.Pipe.flush ⟨none, ⟨"p", some "/"⟩⟩ ⟨⟨[], .ok 7, .ok ()⟩, .ok ()⟩).2.handle =
      some (.arc 7 .Client) :=
  ⟨rfl, rfl⟩

/-- C7 (amended): a successful flush on a Windows pipe that currently holds
a handle unconditionally discards it, forcing the next write to establish a
fresh connection; a flush with no handle present instead runs init_writer
and retains the handle it creates. -/
theorem win_flush_discard_amended (p : Win.Pipe) (os : Win.FlushOS) :
    (∀ h, p.handle = some h → (Win.Pipe.flush p os).1 = .ok () →
      (Win.Pipe.flush p os).2.handle = none) ∧
    (p.handle = none → ∀ p1, Win.init_writer p os.create = .ok p1 →
      Win.Pipe.flush p os = (.ok (), p1)) := by
  constructor
  · intro h hh hs
    cases hf : Win.Handle.flush h os.ff with
    | ok u => simp [Win.Pipe.flush, hh, hf]
    | error e => simp [Win.Pipe.flush, hh, hf] at hs
  · intro hh p1 hiw
    simp [Win.Pipe.flush, hh, hiw]

/-- Witness for C7 (amended): flushing a pipe holding a client handle
discards the handle. -/
theorem win_flush_discard_amended_witness :
    (Win.Pipe.flush ⟨some (.arc 3 .Client), ⟨"p", some "/"⟩⟩
        ⟨⟨[], .ok 7, .ok ()⟩, .ok ()⟩).2.handle = none :=
  (win_flush_discard_amended ⟨some (.arc 3 .Client), ⟨"p", some "/"⟩⟩
      ⟨⟨[], .ok 7, .ok ()⟩, .ok ()⟩).1 (.arc 3 .Client) rfl rfl

/-- Retagging a POSIX handle sets exactly the requested role. -/
theorem unix_handle_type_set_type (h : Unix.Handle) (t : Unix.HandleType) :
    (h.set_type t).handle_type = t := by
  cases h <;> rfl

/-- Retagging a POSIX handle keeps its descriptor. -/
theorem unix_raw_set_type (h : Unix.Handle) (t : Unix.HandleType) :
    (h.set_type t).raw = h.raw := by
  cases h <;> rfl

/-- A successful POSIX Pipe::open returns a master whose handle1 is an
owning handle tagged Unknown. -/
theorem open_handle1_unknown (pa : PathBuf) (c : OnCleanup) (oos : Unix.OpenOS)
    (q : Unix.Pipe) (hq : (Unix.Pipe.open pa c oos).1 = .ok q) :
    ∃ fd, q.handle1 = some (.arc fd .Unknown) := by
  have step :
      (Except.map (fun h =>
          ({ handle1 := some h, handle2 := none, path := pa,
             is_slave := false, delete := some c } : Unix.Pipe))
        (Unix.init_handle pa oos.ih).1 = .ok q) →
      ∃ fd, q.handle1 = some (.arc fd .Unknown) := by
    intro hmap
    cases hr : (Unix.init_handle pa oos.ih).1 with
    | error e => rw [hr] at hmap; simp [Except.map] at hmap
    | ok h =>
      rw [hr] at hmap
      simp [Except.map] at hmap
      obtain ⟨fd, hfd⟩ := init_handle_shape pa oos.ih h hr
      exact ⟨fd, by rw [← hmap, hfd]⟩
  unfold Unix.Pipe.open at hq
  cases hpp : pa.parent with
  | none => rw [hpp] at hq; simp at hq
  | some d =>
    rw [hpp] at hq
    cases hst : oos.st with
    | ok mode =>
      rw [hst] at hq
      by_cases hm : mode &&& Unix.S_IFIFO = 0
      · simp only [hm, if_true, eq_self_iff_true] at hq
        simp at hq
      · simp only [hm, if_false] at hq
        exact step hq
    | error e =>
      rw [hst] at hq
      by_cases he : e = Unix.ENOENT
      · cases hmk : oos.mkfifo with
        | ok u =>
          simp only [he, eq_self_iff_true, if_true, hmk] at hq
          exact step hq
        | error me => simp only [he, eq_self_iff_true, if_true, hmk] at hq; simp at hq
      · simp only [he, if_false] at hq
        simp at hq

/-- C5: on POSIX, handle1 starts Unknown after a successful open; the
first read/write (via init_handle_type with Read or Write) tags a
still-Unknown handle1 with that role and uses its descriptor; a tagged
handle1 is never reclassified; a request matching handle1's role reuses it
and leaves handle2 alone; a request for the opposite direction lazily
opens handle2 against the same path tagged with that direction when it is
absent, and reuses an existing handle2 unchanged thereafter. -/
theorem unix_direction_tagging (p : Unix.Pipe) (h1 : Unix.Handle)
    (t : Unix.HandleType) (os : Unix.InitHandleOS)
    (hh : p.handle1 = some h1) (ht : t ≠ .Unknown) :
    (∀ (pa : PathBuf) (c : OnCleanup) (oos : Unix.OpenOS) (q : Unix.Pipe),
      (Unix.Pipe.open pa c oos).1 = .ok q →
      ∃ fd, q.handle1 = some (.arc fd .Unknown)) ∧
    (h1.handle_type = .Unknown →
      (p.init_handle_type t os).2.handle1 = some (h1.set_type t) ∧
      (∀ fd, h1.raw = some fd → (p.init_handle_type t os).1 = .ok fd)) ∧
    (h1.handle_type ≠ .Unknown →
      (p.init_handle_type t os).2.handle1 = some h1) ∧
    (h1.handle_type = t →
      (p.init_handle_type t os).2.handle2 = p.handle2 ∧
      (∀ fd, h1.raw = some fd → (p.init_handle_type t os).1 = .ok fd)) ∧
    (h1.handle_type ≠ .Unknown → h1.handle_type ≠ t → p.handle2 = none →
      ∀ fd, (Unix.init_handle p.path os).1 = .ok (.arc fd .Unknown) →
        (p.init_handle_type t os).1 = .ok fd ∧
        (p.init_handle_type t os).2.handle2 = some (.arc fd t)) ∧
    (∀ h2, h1.handle_type ≠ .Unknown → h1.handle_type ≠ t → p.handle2 = some h2 →
      (p.init_handle_type t os).2.handle2 = some h2 ∧
      (∀ fd, h2.raw = some fd → (p.init_handle_type t os).1 = .ok fd)) := by
  refine ⟨open_handle1_unknown, ?_, ?_, ?_, ?_, ?_⟩
  · intro hu
    have htt : (h1.set_type t).handle_type = t := unix_handle_type_set_type h1 t
    constructor
    · simp [Unix.Pipe.init_handle_type, hh, hu, htt]
      cases hr : (h1.set_type t).raw <;> simp [hr]
    · intro fd hfd
      have hr : (h1.set_type t).raw = some fd := by rw [unix_raw_set_type, hfd]
      simp [Unix.Pipe.init_handle_type, hh, hu, htt, hr]
  · intro hu
    by_cases hmt : h1.handle_type = t
    · simp [Unix.Pipe.init_handle_type, hh, hu, hmt, ht]
      cases hr : h1.raw <;> simp [hr]
    · simp only [Unix.Pipe.init_handle_type, hh, hu, if_neg hu, if_neg hmt]
      cases hh2 : p.handle2 with
      | some h2 => cases hr : h2.raw <;> simp [hh2, hr, hmt]
      | none =>
        cases hih : (Unix.init_handle p.path os).1 with
        | error e => simp [hh2, hih, hmt]
        | ok hN =>
          cases hr : (hN.set_type t).raw <;> simp [hh2, hih, hr, hmt]
  · intro hmt
    have hu : h1.handle_type ≠ Unix.HandleType.Unknown := by rw [hmt]; exact ht
    constructor
    · simp [Unix.Pipe.init_handle_type, hh, if_neg hu, hmt, ht]
      cases hr : h1.raw <;> simp [hr]
    · intro fd hfd
      simp [Unix.Pipe.init_handle_type, hh, if_neg hu, hmt, ht, hfd]
  · intro hu hmt hh2 fd hih
    have hrt : ((Unix.Handle.arc fd Unix.HandleType.Unknown).set_type t).raw = some fd := rfl
    constructor <;>
      simp [Unix.Pipe.init_handle_type, hh, if_neg hu, if_neg hmt, hh2, hih,
        Unix.Handle.set_type, Unix.Handle.raw]
  · intro h2 hu hmt hh2
    constructor
    · simp [Unix.Pipe.init_handle_type, hh, if_neg hu, if_neg hmt, hh2]
      cases hr : h2.raw <;> simp [hr]
    · intro fd hfd
      simp [Unix.Pipe.init_handle_type, hh, if_neg hu, if_neg hmt, hh2, hfd]

/-- Witness for C5: a Write-tagged handle1 receiving a Read request lazily
opens handle2 with the Read role and returns its fresh descriptor. -/
theorem unix_direction_tagging_witness :
    (Unix.Pipe.init_handle_type
        ⟨some (.arc 3 .Write), none, ⟨"f", some "/tmp"⟩, false, some OnCleanup.NoDelete⟩
        .Read ⟨.ok 4096, .ok 4⟩).1 = .ok 4 ∧
    (Unix.Pipe.init_handle_type
        ⟨some (.arc 3 .Write), none, ⟨"f", some "/tmp"⟩, false, some OnCleanup.NoDelete⟩
        .Read ⟨.ok 4096, .ok 4⟩).2.handle2 = some (.arc 4 .Read) :=
  (unix_direction_tagging
      ⟨some (.arc 3 .Write), none, ⟨"f", some "/tmp"⟩, false, some OnCleanup.NoDelete⟩
      (.arc 3 .Write) .Read ⟨.ok 4096, .ok 4⟩ rfl (by decide)).2.2.2.2.1
    (by decide) (by decide) rfl 4 rfl

/-- C10: every error produced by the Windows Handle::write carries a raw
OS error code (a WriteFile failure carries last_os_error, a neutralized
handle a synthesized ERROR_PIPE_NOT_CONNECTED), so Pipe::write's
unconditional unwrap in its retry dispatch — and its unreachable! arms —
never panic, for any pipe state and any OS behavior. -/
theorem win_write_never_panics :
    ∀ (h : Win.Handle) (wos : Except Nat Nat) (p : Win.Pipe) (os : Win.WriteOS),
      (match Win.Handle.write h wos with
       | .error e => e.rawOs.isSome
       | .ok _ => true) = true ∧
      (Win.Pipe.write p os).1.isPanic = false := by
  intro h wos p os
  constructor
  · cases hw : Win.Handle.write h wos with
    | ok n => rfl
    | error e =>
      obtain ⟨c, hc⟩ := handle_write_err_code h wos e hw
      simp [hc]
  · cases hiw : Win.init_writer p os.create1 with
    | error e => simp [Win.Pipe.write, hiw, PRes.isPanic]
    | ok p1 =>
      obtain ⟨h1, hh1⟩ := init_writer_handle_isSome p os.create1 p1 hiw
      cases hw : Win.Handle.write h1 os.wf1 with
      | ok r => simp [Win.Pipe.write, hiw, hh1, hw, PRes.isPanic]
      | error e =>
        obtain ⟨c, hc⟩ := handle_write_err_code h1 os.wf1 e hw
        by_cases hcd : c = Win.ERROR_NO_DATA
        · subst hcd
          cases hiw2 : Win.init_writer { p1 with handle := none } os.create2 with
          | error e2 =>
            simp [Win.Pipe.write, hiw, hh1, hw, hc, hiw2, PRes.isPanic]
          | ok p2 =>
            obtain ⟨h2, hh2⟩ := init_writer_handle_isSome _ os.create2 p2 hiw2
            cases hwf : Win.Handle.write h2 os.wf2 <;>
              simp [Win.Pipe.write, hiw, hh1, hw, hc, hiw2, hh2, hwf, toPRes,
                PRes.isPanic]
        · simp [Win.Pipe.write, hiw, hh1, hw, hc, hcd, PRes.isPanic]

/-- C1: on the Windows write path, a first write attempt failing with the
ERROR_NO_DATA broken-pipe code makes Pipe::write drop the handle and
perform exactly one reconnect-and-retry (the second write attempt runs on
the freshly created client handle and its outcome, success or error, is
returned as-is); any other first-attempt error is surfaced without retry; a
successful first attempt returns immediately; and the number of write
attempts never exceeds two. -/
theorem win_write_retries_once_on_no_data (p p1 : Win.Pipe) (os : Win.WriteOS)
    (h : Win.Handle)
    (h1 : Win.init_writer p os.create1 = .ok p1) (h2 : p1.handle = some h) :
    (∀ n, Win.Handle.write h os.wf1 = .ok n →
      Win.Pipe.write p os = (.ok n, p1, 1)) ∧
    (∀ e, Win.Handle.write h os.wf1 = .error e →
      e.rawOs ≠ some Win.ERROR_NO_DATA →
      Win.Pipe.write p os = (.err e, p1, 1)) ∧
    (∀ e, Win.Handle.write h os.wf1 = .error e →
      e.rawOs = some Win.ERROR_NO_DATA →
      (∀ e2, Win.create_pipe os.create2 = .error e2 →
        Win.Pipe.write p os = (.err e2, { p1 with handle := none }, 1)) ∧
      (∀ h2n, Win.create_pipe os.create2 = .ok h2n →
        Win.Pipe.write p os =
          (toPRes (Win.Handle.write h2n os.wf2),
            { p1 with handle := some h2n }, 2))) ∧
    (Win.Pipe.write p os).2.2 ≤ 2 := by
  refine ⟨?_, ?_, ?_, ?_⟩
  · intro n hw
    simp [Win.Pipe.write, h1, h2, hw]
  · intro e hw hne
    obtain ⟨c, hc⟩ := handle_write_err_code h os.wf1 e hw
    have hcd : c ≠ Win.ERROR_NO_DATA := by
      intro hx
      exact hne (by rw [hc, hx])
    simp [Win.Pipe.write, h1, h2, hw, hc, hcd]
  · intro e hw he
    constructor
    · intro e2 hcp
      have hin : Win.init_writer { p1 with handle := none } os.create2 = .error e2 := by
        simp [Win.init_writer, hcp]
      simp [Win.Pipe.write, h1, h2, hw, he, hin]
    · intro h2n hcp
      have hin : Win.init_writer { p1 with handle := none } os.create2 =
          .ok { p1 with handle := some h2n } := by
        simp [Win.init_writer, hcp]
      simp [Win.Pipe.write, h1, h2, hw, he, hin]
  · cases hiw : Win.init_writer p os.create1 with
    | error e => simp [Win.Pipe.write, hiw]
    | ok p1x =>
      obtain ⟨hx, hhx⟩ := init_writer_handle_isSome p os.create1 p1x hiw
      cases hw : Win.Handle.write hx os.wf1 with
      | ok r => simp [Win.Pipe.write, hiw, hhx, hw]
      | error e =>
        obtain ⟨c, hc⟩ := handle_write_err_code hx os.wf1 e hw
        by_cases hcd : c = Win.ERROR_NO_DATA
        · subst hcd
          cases hiw2 : Win.init_writer { p1x with handle := none } os.create2 with
          | error e2 => simp [Win.Pipe.write, hiw, hhx, hw, hc, hiw2]
          | ok p2 =>
            obtain ⟨h2x, hh2x⟩ := init_writer_handle_isSome _ os.create2 p2 hiw2
            simp [Win.Pipe.write, hiw, hhx, hw, hc, hiw2, hh2x]
        · simp [Win.Pipe.write, hiw, hhx, hw, hc, hcd]

/-- Witness for C1: a concrete broken-pipe write — first attempt fails
with ERROR_NO_DATA (code 232), the reconnect creates descriptor 7, and the
retried write succeeds with 5 bytes, for a total of exactly two write
attempts. -/
theorem win_write_retries_once_on_no_data_witness :
    Win.Pipe.write ⟨some (.arc 3 .Client), ⟨"p", some "/"⟩⟩
        ⟨⟨[], .ok 99, .ok ()⟩, .error 232, ⟨[], .ok 7, .ok ()⟩, .ok 5⟩ =
      (.ok 5, ⟨some (.arc 7 .Client), ⟨"p", some "/"⟩⟩, 2) :=
  ((win_write_retries_once_on_no_data
      ⟨some (.arc 3 .Client), ⟨"p", some "/"⟩⟩
      ⟨some (.arc 3 .Client), ⟨"p", some "/"⟩⟩
      ⟨⟨[], .ok 99, .ok ()⟩, .error 232, ⟨[], .ok 7, .ok ()⟩, .ok 5⟩
      (.arc 3 .Client) rfl rfl).2.2.1 ⟨some 232⟩ rfl rfl).2 (.arc 7 .Client) rfl

end Ipipe
